import Mathlib

/-!
Shallow embedding of the cdumay_core error-handling library (Rust) together
with a verification of the specification claims about it.

The embedding follows the source files:
  src/error/kind.rs     (ErrorKind and its accessors, side)
  src/error/error.rs    (Error, accessors, Display, serde shape)
  src/error/builder.rs  (ErrorBuilder: new, with_code, with_message,
                         with_details, build)
  src/macros.rs         (define_kinds / define_errors expansion: the static
                         binding of a generated type and its instance state)
  src/result.rs         (the crate Result type, map, From std Result)
  src/error/convert.rs  (ErrorConverter; this file is absent from the tree,
                         so store_origin is modelled from the spec, see below)

Rust u16 codes are modelled as Nat (no arithmetic is ever performed on a
code, so no overflow can arise); Rust String as Lean String; BTreeMap as an
association list kept sorted by key, with an insert that replaces the value
of an existing key exactly as BTreeMap does.
-/

namespace CdumayCore

/-- Abstraction of serde_value::Value, the payload type of detail maps. The
library itself only ever constructs the string variant (the origin entry);
the other constructors stand in for the remaining payload variants, which
every claim-relevant function treats as opaque data. -/
inductive Value where
  | str : String → Value
  | int : Int → Value
  | bool : Bool → Value
deriving DecidableEq, Repr

/-- BTreeMap String serde_value::Value, as an association list sorted by key. -/
abbrev Details := List (String × Value)

/-- Map lookup (BTreeMap::get). -/
def dfind (k : String) : Details → Option Value
  | [] => none
  | (k2, v) :: rest => if k = k2 then some v else dfind k rest

/-- BTreeMap::insert: replaces the value when the key is already present,
otherwise inserts the pair at its sorted position. -/
def dinsert (k : String) (v : Value) : Details → Details
  | [] => [(k, v)]
  | (k2, v2) :: rest =>
    if k < k2 then (k, v) :: (k2, v2) :: rest
    else if k = k2 then (k, v) :: rest
    else (k2, v2) :: dinsert k v rest

/-- ErrorKind (src/error/kind.rs): a tuple struct of name, numeric code and
description. The positional accessors name, code and description are the
projections. -/
structure ErrorKind where
  name : String
  code : Nat
  description : String
deriving DecidableEq, Repr

/-- ErrorKind::side (src/error/kind.rs lines 78-83): the Rust match sends
codes 0..=499 to Client and every other u16 to Server. -/
def ErrorKind.side (k : ErrorKind) : String :=
  if k.code ≤ 499 then "Client" else "Server"

/-- Error (src/error/error.rs): code, class, message, details. The class
field is spelled cls because class is a Lean keyword. -/
structure Error where
  code : Nat
  cls : String
  message : String
  details : Details
deriving DecidableEq, Repr

/-- Error::new (src/error/error.rs lines 55-62): total field-by-field
constructor, no validation. -/
def Error.new (code : Nat) (cls : String) (message : String) (details : Details) : Error :=
  ⟨code, cls, message, details⟩

/-- Display for Error (src/error/error.rs lines 167-171): the format string
is the class, the code in parentheses, a hyphen, the message. -/
def Error.display (e : Error) : String :=
  e.cls ++ " (" ++ toString e.code ++ ") - " ++ e.message

/-- ErrorBuilder (src/error/builder.rs lines 26-38): kind, optional code,
site name, optional message, details map (a plain map, empty by default,
not an Option). -/
structure ErrorBuilder where
  kind : ErrorKind
  code : Option Nat
  name : String
  message : Option String
  details : Details
deriving DecidableEq, Repr

/-- ErrorBuilder::new (src/error/builder.rs lines 54-62). -/
def ErrorBuilder.new (kind : ErrorKind) (name : String) : ErrorBuilder :=
  ⟨kind, none, name, none, []⟩

/-- ErrorBuilder::with_code (src/error/builder.rs lines 73-76). -/
def ErrorBuilder.with_code (b : ErrorBuilder) (code : Nat) : ErrorBuilder :=
  { b with code := some code }

/-- ErrorBuilder::with_message (src/error/builder.rs lines 87-90). -/
def ErrorBuilder.with_message (b : ErrorBuilder) (message : String) : ErrorBuilder :=
  { b with message := some message }

/-- ErrorBuilder::with_details (src/error/builder.rs lines 105-108): the
stored map is replaced wholesale. -/
def ErrorBuilder.with_details (b : ErrorBuilder) (details : Details) : ErrorBuilder :=
  { b with details := details }

/-- ErrorBuilder::build (src/error/builder.rs lines 121-128): code falls
back to the kind code, the class is composed from the kind side, the kind
name and the site name, the message falls back to the kind description,
the details map is passed through. -/
def ErrorBuilder.build (b : ErrorBuilder) : Error :=
  Error.new (b.code.getD b.kind.code)
    (b.kind.side ++ "::" ++ b.kind.name ++ "::" ++ b.name)
    (b.message.getD b.kind.description)
    b.details

/-- One builder setter call, used to quantify over arbitrary finite
sequences of with_code / with_message / with_details calls. -/
inductive BuilderOp where
  | withCode : Nat → BuilderOp
  | withMessage : String → BuilderOp
  | withDetails : Details → BuilderOp
deriving DecidableEq, Repr

/-- Apply one setter call to a builder. -/
def applyOp (b : ErrorBuilder) : BuilderOp → ErrorBuilder
  | .withCode c => b.with_code c
  | .withMessage m => b.with_message m
  | .withDetails d => b.with_details d

/-- Apply a sequence of setter calls, left to right. -/
def applyOps (b : ErrorBuilder) (ops : List BuilderOp) : ErrorBuilder :=
  ops.foldl applyOp b

/-- Argument of the last with_code call of a sequence, if any. -/
def lastSetCode (ops : List BuilderOp) : Option Nat :=
  ops.foldl (fun acc op => match op with | .withCode c => some c | _ => acc) none

/-- Argument of the last with_message call of a sequence, if any. -/
def lastSetMessage (ops : List BuilderOp) : Option String :=
  ops.foldl (fun acc op => match op with | .withMessage m => some m | _ => acc) none

/-- Argument of the last with_details call of a sequence, if any. -/
def lastSetDetails (ops : List BuilderOp) : Option Details :=
  ops.foldl (fun acc op => match op with | .withDetails d => some d | _ => acc) none

/-- Static data of one type generated by define_errors (src/macros.rs lines
103-110 and 132-137): the type name (stringify of the identifier), the
bound kind constant, and the default code and message chosen by the parse
rule that matched the binding. -/
structure GenBinding where
  name : String
  kind : ErrorKind
  defaultCode : Nat
  defaultMessage : String
deriving DecidableEq, Repr

/-- Parse rule Type = Kind (src/macros.rs lines 89-91): defaults are the
kind code and the kind description. -/
def bindKind (n : String) (k : ErrorKind) : GenBinding :=
  ⟨n, k, k.code, k.description⟩

/-- Parse rule Type = (Kind, Code) (src/macros.rs lines 94-96): the default
code is overridden, the message default stays the kind description. -/
def bindKindCode (n : String) (k : ErrorKind) (c : Nat) : GenBinding :=
  ⟨n, k, c, k.description⟩

/-- Parse rule Type = (Kind, Code, Message) (src/macros.rs lines 99-101):
both defaults are overridden. -/
def bindKindCodeMessage (n : String) (k : ErrorKind) (c : Nat) (m : String) : GenBinding :=
  ⟨n, k, c, m⟩

/-- Runtime state of a generated error-type instance (src/macros.rs lines
106-110): three optional overrides, note that details is an Option here,
unlike in ErrorBuilder. -/
structure GenInstance where
  code : Option Nat
  message : Option String
  details : Option Details
deriving DecidableEq, Repr

/-- Generated new (src/macros.rs lines 125-131): all overrides unset. -/
def GenInstance.new : GenInstance := ⟨none, none, none⟩

/-- Generated with_code (src/macros.rs lines 139-142). -/
def GenInstance.with_code (e : GenInstance) (c : Nat) : GenInstance :=
  { e with code := some c }

/-- Generated with_message (src/macros.rs lines 148-151). -/
def GenInstance.with_message (e : GenInstance) (m : String) : GenInstance :=
  { e with message := some m }

/-- Generated with_details (src/macros.rs lines 157-160). -/
def GenInstance.with_details (e : GenInstance) (d : Details) : GenInstance :=
  { e with details := some d }

/-- Generated code accessor (src/macros.rs lines 135-137): override or the
default code of the binding. -/
def genCode (B : GenBinding) (e : GenInstance) : Nat :=
  e.code.getD B.defaultCode

/-- Generated message accessor (src/macros.rs lines 144-146): override or
the default message of the binding. -/
def genMessage (B : GenBinding) (e : GenInstance) : String :=
  e.message.getD B.defaultMessage

/-- Generated details accessor (src/macros.rs lines 153-155): override or
the empty map. -/
def genDetails (e : GenInstance) : Details :=
  e.details.getD []

/-- Generated class accessor (src/macros.rs lines 162-164): kind side, kind
name, type name. -/
def genClass (B : GenBinding) : String :=
  B.kind.side ++ "::" ++ B.kind.name ++ "::" ++ B.name

/-- Generated From conversion into Error (src/macros.rs lines 169-177):
an ErrorBuilder seeded with the bound kind and the type name, then
with_code, with_message, with_details from the accessors, then build. -/
def genToError (B : GenBinding) (e : GenInstance) : Error :=
  ((((ErrorBuilder.new B.kind B.name).with_code (genCode B e)).with_message
      (genMessage B e)).with_details (genDetails e)).build

/-- Generated Display (src/macros.rs lines 179-183): the format string is
the class, the code in parentheses, a colon, the message. -/
def genDisplay (B : GenBinding) (e : GenInstance) : String :=
  genClass B ++ " (" ++ toString (genCode B e) ++ "): " ++ genMessage B e

/-- Modelled from the spec: src/error/convert.rs, the file declaring
ErrorConverter and its provided method store_origin, is missing from the
tree (src/error/mod.rs re-exports it and tests/error_converter.rs exercises
it). Following the spec wording, with an override message the rendered text
of the foreign error is inserted into the context under the reserved key
origin and the override becomes the message; with no override the rendered
text itself becomes the message and the context is passed through
untouched. The foreign error appears only through its rendered Display
text, passed here as renderedOrigin. -/
def store_origin (renderedOrigin : String) (text : Option String) (context : Details) :
    String × Details :=
  match text with
  | some t => (t, dinsert "origin" (Value.str renderedOrigin) context)
  | none => (renderedOrigin, context)

/-- JSON-like value tree for the serde boundary format. -/
inductive Json where
  | str : String → Json
  | num : Int → Json
  | bool : Bool → Json
  | obj : List (String × Json) → Json

/-- Payload serialization of one detail value. -/
def valueToJson : Value → Json
  | .str s => .str s
  | .int n => .num n
  | .bool b => .bool b

/-- Payload deserialization of one detail value. -/
def jsonToValue : Json → Option Value
  | .str s => some (.str s)
  | .num n => some (.int n)
  | .bool b => some (.bool b)
  | .obj _ => none

/-- Derived Serialize for Error (src/error/error.rs lines 12-28): fields in
declaration order with code skipped by the skip_serializing attribute, so
the emitted record is class, message, details only. -/
def serializeError (e : Error) : Json :=
  .obj [("class", .str e.cls), ("message", .str e.message),
        ("details", .obj (e.details.map (fun p => (p.1, valueToJson p.2))))]

/-- Field lookup in a serialized object. -/
def jfind (k : String) : List (String × Json) → Option Json
  | [] => none
  | (k2, v) :: rest => if k = k2 then some v else jfind k rest

/-- Read back a serialized details object. -/
def jsonToDetails : List (String × Json) → Option Details
  | [] => some []
  | (k, j) :: rest =>
    match jsonToValue j, jsonToDetails rest with
    | some v, some d => some ((k, v) :: d)
    | _, _ => none

/-- Derived Deserialize for Error (src/error/error.rs lines 12-28): the
code field carries only skip_serializing, not a default, so the derived
deserializer still requires all four fields: a record without a code field
is rejected with a missing-field error, exactly as serde does. -/
def deserializeError : Json → Except String Error
  | .obj fields =>
    match jfind "code" fields with
    | none => .error "missing field code"
    | some codeJ =>
      match codeJ with
      | .num n =>
        if 0 ≤ n ∧ n < 65536 then
          match jfind "class" fields with
          | none => .error "missing field class"
          | some (.str cls) =>
            match jfind "message" fields with
            | none => .error "missing field message"
            | some (.str msg) =>
              match jfind "details" fields with
              | none => .error "missing field details"
              | some (.obj dfields) =>
                match jsonToDetails dfields with
                | some d => .ok (Error.new n.toNat cls msg d)
                | none => .error "invalid details value"
              | some _ => .error "invalid type for details"
            | some _ => .error "invalid type for message"
          | some _ => .error "invalid type for class"
        else .error "invalid u16 code"
      | _ => .error "invalid type for code"
  | _ => .error "expected a map"

/-- The crate Result type (src/result.rs lines 17-23): Ok with a success
value or Err with the crate Error. -/
inductive CResult (T : Type) where
  | ok : T → CResult T
  | err : Error → CResult T

/-- Result::map (src/result.rs lines 44-52). -/
def CResult.map {T U : Type} (r : CResult T) (f : T → U) : CResult U :=
  match r with
  | .ok t => .ok (f t)
  | .err e => .err e

/-- From std Result for the crate Result (src/result.rs lines 55-62); the
std Result with the crate Error as error type is modelled by Except. -/
def CResult.fromStd {S : Type} (res : Except Error S) : CResult S :=
  match res with
  | .ok data => .ok data
  | .error e => .err e

/-- Greedy left-to-right split of a character list at occurrences of two
consecutive colons, mirroring how a string is read as a list of segments
separated by the two-colon separator. -/
def splitSep : List Char → List (List Char)
  | [] => [[]]
  | [c] => [[c]]
  | c1 :: c2 :: rest =>
    if c1 = ':' ∧ c2 = ':' then [] :: splitSep rest
    else
      match splitSep (c2 :: rest) with
      | [] => [[c1]]
      | s :: ss => (c1 :: s) :: ss

/-! Helper lemmas about the segment splitter, the detail map and builder
setter sequences. -/

/-- Splitting a colon-free prefix followed by the separator peels off the
prefix as one whole segment. -/
theorem splitSep_sep (xs ys : List Char) (h : ':' ∉ xs) :
    splitSep (xs ++ ':' :: ':' :: ys) = xs :: splitSep ys := by
  induction xs with
  | nil => simp [splitSep]
  | cons c xs ih =>
    have hc : c ≠ ':' := fun hh => h (hh ▸ List.mem_cons_self c xs)
    have h2 : ':' ∉ xs := fun hm => h (List.mem_cons_of_mem c hm)
    cases xs with
    | nil => simp [splitSep, hc]
    | cons d xs2 =>
      have hrec := ih h2
      simp only [List.cons_append] at hrec ⊢
      simp only [splitSep]
      rw [if_neg (by simp [hc]), hrec]

/-- A colon-free character list is a single segment. -/
theorem splitSep_noColon (xs : List Char) (h : ':' ∉ xs) : splitSep xs = [xs] := by
  induction xs with
  | nil => simp [splitSep]
  | cons c xs ih =>
    have hc : c ≠ ':' := fun hh => h (hh ▸ List.mem_cons_self c xs)
    have h2 : ':' ∉ xs := fun hm => h (List.mem_cons_of_mem c hm)
    cases xs with
    | nil => simp [splitSep]
    | cons d xs2 => simp [splitSep, hc, ih h2]

/-- The side string of any kind is colon-free. -/
theorem side_noColon (k : ErrorKind) : ':' ∉ k.side.data := by
  by_cases h : k.code ≤ 499 <;> simp [ErrorKind.side, h]

/-- Looking up the inserted key finds the inserted value. -/
theorem dfind_dinsert_self (k : String) (v : Value) (d : Details) :
    dfind k (dinsert k v d) = some v := by
  induction d with
  | nil => simp [dinsert, dfind]
  | cons p rest ih =>
    obtain ⟨k1, v1⟩ := p
    by_cases hlt : k < k1
    · simp [dinsert, hlt, dfind]
    · by_cases heq : k = k1
      · simp [dinsert, hlt, heq, dfind]
      · simp [dinsert, hlt, heq, dfind, ih]

/-- Looking up any other key is unchanged by an insert. -/
theorem dfind_dinsert_ne (k k2 : String) (v : Value) (hne : k2 ≠ k) (d : Details) :
    dfind k2 (dinsert k v d) = dfind k2 d := by
  induction d with
  | nil => simp [dinsert, dfind, hne]
  | cons p rest ih =>
    obtain ⟨k1, v1⟩ := p
    by_cases hlt : k < k1
    · simp [dinsert, hlt, dfind, hne]
    · by_cases heq : k = k1
      · subst heq
        simp [dinsert, hlt, dfind, hne]
      · by_cases h21 : k2 = k1 <;> simp [dinsert, hlt, heq, dfind, h21, ih]

/-- State of a builder after a sequence of setter calls: the kind and the
site name are untouched, and each override field holds the argument of the
last corresponding setter call (the details field, which starts at the
empty map rather than at an unset option, holds the empty map when no
with_details call occurred). -/
theorem applyOps_state (k : ErrorKind) (site : String) (ops : List BuilderOp) :
    (applyOps (ErrorBuilder.new k site) ops).kind = k ∧
    (applyOps (ErrorBuilder.new k site) ops).name = site ∧
    (applyOps (ErrorBuilder.new k site) ops).code = lastSetCode ops ∧
    (applyOps (ErrorBuilder.new k site) ops).message = lastSetMessage ops ∧
    (applyOps (ErrorBuilder.new k site) ops).details = (lastSetDetails ops).getD [] := by
  induction ops using List.reverseRecOn with
  | nil => exact ⟨rfl, rfl, rfl, rfl, rfl⟩
  | append_singleton ops op ih =>
    obtain ⟨h1, h2, h3, h4, h5⟩ := ih
    simp only [applyOps, List.foldl_append, List.foldl_cons, List.foldl_nil] at h1 h2 h3 h4 h5 ⊢
    cases op with
    | withCode c =>
      exact ⟨by simp [applyOp, ErrorBuilder.with_code, h1],
        by simp [applyOp, ErrorBuilder.with_code, h2],
        by simp [applyOp, ErrorBuilder.with_code, lastSetCode, List.foldl_append],
        by simp [applyOp, ErrorBuilder.with_code, lastSetMessage, List.foldl_append]
           ; simpa [lastSetMessage] using h4,
        by simp [applyOp, ErrorBuilder.with_code, lastSetDetails, List.foldl_append]
           ; simpa [lastSetDetails] using h5⟩
    | withMessage m =>
      exact ⟨by simp [applyOp, ErrorBuilder.with_message, h1],
        by simp [applyOp, ErrorBuilder.with_message, h2],
        by simp [applyOp, ErrorBuilder.with_message, lastSetCode, List.foldl_append]
           ; simpa [lastSetCode] using h3,
        by simp [applyOp, ErrorBuilder.with_message, lastSetMessage, List.foldl_append],
        by simp [applyOp, ErrorBuilder.with_message, lastSetDetails, List.foldl_append]
           ; simpa [lastSetDetails] using h5⟩
    | withDetails d =>
      exact ⟨by simp [applyOp, ErrorBuilder.with_details, h1],
        by simp [applyOp, ErrorBuilder.with_details, h2],
        by simp [applyOp, ErrorBuilder.with_details, lastSetCode, List.foldl_append]
           ; simpa [lastSetCode] using h3,
        by simp [applyOp, ErrorBuilder.with_details, lastSetMessage, List.foldl_append]
           ; simpa [lastSetMessage] using h4,
        by simp [applyOp, ErrorBuilder.with_details, lastSetDetails, List.foldl_append]⟩

/-! Claim theorems. -/

/-- C4 (confirmed): ErrorBuilder::new(kind, site).build() with no override
setters called yields code = kind.code(), message = kind.description(),
class composed of kind.side(), kind.name() and the site name, and an empty
details map; build is a total Lean function, so building always succeeds. -/
theorem errorBuilder_build_defaults (k : ErrorKind) (site : String) :
    ((ErrorBuilder.new k site).build).code = k.code ∧
    ((ErrorBuilder.new k site).build).message = k.description ∧
    ((ErrorBuilder.new k site).build).cls = k.side ++ "::" ++ k.name ++ "::" ++ site ∧
    ((ErrorBuilder.new k site).build).details = [] :=
  ⟨rfl, rfl, rfl, rfl⟩

/-- C5 (confirmed): for every u16 code, ErrorKind::side returns Client on
codes 0 to 499 and Server on codes 500 and above. -/
theorem errorKind_side_classification (n d : String) (c : Nat) (hu : c < 65536) :
    (c ≤ 499 → (ErrorKind.mk n c d).side = "Client") ∧
    (500 ≤ c → (ErrorKind.mk n c d).side = "Server") := by
  constructor
  · intro h; simp [ErrorKind.side, h]
  · intro h
    have hn : ¬ c ≤ 499 := by omega
    simp [ErrorKind.side, hn]

/-- Witness for C5 at the concrete code 404. -/
theorem errorKind_side_classification_witness :
    (ErrorKind.mk "NotFound" 404 "Not Found").side = "Client" :=
  (errorKind_side_classification "NotFound" "Not Found" 404 (by decide)).1 (by decide)

/-- C6 (confirmed): after any finite sequence of setter calls on a fresh
builder, build yields the argument of the last with_code, with_message and
with_details call respectively, or the kind default (empty map for details)
when that setter never ran, regardless of call order; in particular a
second with_details call fully replaces the earlier map. -/
theorem errorBuilder_setters_last_write_wins (k : ErrorKind) (site : String)
    (ops : List BuilderOp) :
    ((applyOps (ErrorBuilder.new k site) ops).build).code = (lastSetCode ops).getD k.code ∧
    ((applyOps (ErrorBuilder.new k site) ops).build).message
      = (lastSetMessage ops).getD k.description ∧
    ((applyOps (ErrorBuilder.new k site) ops).build).details = (lastSetDetails ops).getD [] := by
  obtain ⟨h1, h2, h3, h4, h5⟩ := applyOps_state k site ops
  refine ⟨?_, ?_, ?_⟩ <;> simp [ErrorBuilder.build, Error.new, h1, h2, h3, h4, h5]

/-- C1 counterexample: the kind is (A::B, 400, d) and the builder carries a
with_code 500 override, so the built Error has code field 500; its class is
Client::A::B::S, which both has four two-colon-separated segments and
starts with Client although the code is above 499. -/
theorem errorBuilder_class_side_counterexample :
    ¬ ((splitSep ((((ErrorBuilder.new ⟨"A::B", 400, "d"⟩ "S").with_code 500).build).cls).data).length = 3 ∧
       (splitSep ((((ErrorBuilder.new ⟨"A::B", 400, "d"⟩ "S").with_code 500).build).cls).data).head? =
         some (if (((ErrorBuilder.new ⟨"A::B", 400, "d"⟩ "S").with_code 500).build).code ≤ 499
           then ("Client" : String).data else ("Server" : String).data)) := by
  decide

/-- C1 (amended): for every kind whose name is colon-free, every colon-free
site name, and any combination of with_code, with_message and with_details
overrides, the class of the built Error splits at the two-colon separator
into exactly three segments, and the first segment is Client when the KIND
code is at most 499 and Server otherwise: the side tracks the kind code,
not the (possibly overridden) code field of the Error itself. -/
theorem errorBuilder_class_three_segments (k : ErrorKind) (site : String)
    (ops : List BuilderOp) (hname : ':' ∉ k.name.data) (hsite : ':' ∉ site.data) :
    (splitSep (((applyOps (ErrorBuilder.new k site) ops).build).cls).data).length = 3 ∧
    (splitSep (((applyOps (ErrorBuilder.new k site) ops).build).cls).data).head? =
      some (if k.code ≤ 499 then ("Client" : String).data else ("Server" : String).data) := by
  obtain ⟨h1, h2, -, -, -⟩ := applyOps_state k site ops
  have hcls : (((applyOps (ErrorBuilder.new k site) ops).build).cls)
      = k.side ++ "::" ++ k.name ++ "::" ++ site := by
    simp [ErrorBuilder.build, Error.new, h1, h2]
  have hsep : ("::" : String).data = [':', ':'] := rfl
  have hdata : (k.side ++ "::" ++ k.name ++ "::" ++ site).data
      = k.side.data ++ ':' :: ':' :: (k.name.data ++ ':' :: ':' :: site.data) := by
    simp [String.data_append, hsep]
  have hsplit : splitSep ((k.side ++ "::" ++ k.name ++ "::" ++ site).data)
      = [k.side.data, k.name.data, site.data] := by
    rw [hdata, splitSep_sep _ _ (side_noColon k), splitSep_sep _ _ hname,
      splitSep_noColon _ hsite]
  rw [hcls, hsplit]
  refine ⟨rfl, ?_⟩
  by_cases hc : k.code ≤ 499 <;> simp [ErrorKind.side, hc]

/-- Witness for the amended C1 at the kind of tests/error.rs and no
overrides. -/
theorem errorBuilder_class_three_segments_witness :
    (splitSep (((applyOps (ErrorBuilder.new (ErrorKind.mk "TestError" 500 "Test error message") "MyError") []).build).cls).data).length = 3 ∧
    (splitSep (((applyOps (ErrorBuilder.new (ErrorKind.mk "TestError" 500 "Test error message") "MyError") []).build).cls).data).head? =
      some (if (ErrorKind.mk "TestError" 500 "Test error message").code ≤ 499
        then ("Client" : String).data else ("Server" : String).data) :=
  errorBuilder_class_three_segments (ErrorKind.mk "TestError" 500 "Test error message")
    "MyError" [] (by decide) (by decide)

/-- C2 counterexample: when the context already holds an origin entry, the
insert performed by store_origin with an override message replaces that
pre-existing entry instead of keeping it unchanged. -/
theorem store_origin_preexisting_origin_counterexample :
    dfind "origin" (store_origin "Oops" (some "Custom") [("origin", Value.str "old")]).2
      ≠ some (Value.str "old") := by
  simp [store_origin, dinsert, dfind]

/-- C2 (amended): with an override message, store_origin returns the
override as the message and the context with the rendered foreign-error
text inserted under the key origin, keeping every pre-existing entry whose
key differs from origin unchanged (a pre-existing origin entry is
overwritten); with no override it returns the rendered text as the message
and the context exactly as passed in. -/
theorem store_origin_spec (rendered t : String) (ctx : Details) :
    (store_origin rendered (some t) ctx).1 = t ∧
    dfind "origin" (store_origin rendered (some t) ctx).2 = some (Value.str rendered) ∧
    (∀ k2 : String, k2 ≠ "origin" →
      dfind k2 (store_origin rendered (some t) ctx).2 = dfind k2 ctx) ∧
    store_origin rendered none ctx = (rendered, ctx) := by
  refine ⟨rfl, ?_, ?_, rfl⟩
  · exact dfind_dinsert_self "origin" (Value.str rendered) ctx
  · intro k2 h
    exact dfind_dinsert_ne "origin" k2 (Value.str rendered) h ctx

/-- Witness for the amended C2 at the inputs of
tests/error_converter.rs test_store_origin_with_text. -/
theorem store_origin_spec_witness :
    dfind "key" (store_origin "Oops" (some "Custom") [("key", Value.str "value")]).2
      = dfind "key" [("key", Value.str "value")] :=
  (store_origin_spec "Oops" "Custom" [("key", Value.str "value")]).2.2.1 "key" (by decide)

/-- C3 (code bug): the serde derive pair on Error excludes code from the
serialized body (skip_serializing) but the derived deserializer, lacking a
default for the field, still requires it, so the round trip promised by the
claim never succeeds: deserializing the serialized body of any Error is
rejected with a missing-field error instead of yielding an Error with the
original class, message and details. -/
theorem error_serde_roundtrip_missing_code (e : Error) :
    deserializeError (serializeError e) = .error "missing field code" := rfl

/-- C7 (confirmed): a generated type bound as Type = (Kind, Code) has
new().code() = Code and new().message() = Kind.description(); bound as
Type = (Kind, Code, Message) it has new().code() = Code and
new().message() = Message; bound as Type = Kind it inherits both the kind
code and the kind description. -/
theorem generated_type_defaults (n : String) (k : ErrorKind) (c : Nat) (m : String) :
    (genCode (bindKindCode n k c) GenInstance.new = c ∧
      genMessage (bindKindCode n k c) GenInstance.new = k.description) ∧
    (genCode (bindKindCodeMessage n k c m) GenInstance.new = c ∧
      genMessage (bindKindCodeMessage n k c m) GenInstance.new = m) ∧
    (genCode (bindKind n k) GenInstance.new = k.code ∧
      genMessage (bindKind n k) GenInstance.new = k.description) :=
  ⟨⟨rfl, rfl⟩, ⟨rfl, rfl⟩, ⟨rfl, rfl⟩⟩

/-- C8 (confirmed): converting a generated error-type instance into the
canonical Error preserves the resolved code, message and details accessor
results and composes the class from the kind side, the kind name and the
type name. -/
theorem generated_into_error_preserves (B : GenBinding) (e : GenInstance) :
    (genToError B e).code = genCode B e ∧
    (genToError B e).message = genMessage B e ∧
    (genToError B e).details = genDetails e ∧
    (genToError B e).cls = B.kind.side ++ "::" ++ B.kind.name ++ "::" ++ B.name :=
  ⟨rfl, rfl, rfl, rfl⟩

/-- C9 counterexample: the generated Display of the type NotFoundError
bound to the kind (NotFound, 404, Resource Not Found) does not have the
hyphen shape of the Display of Error: the generated format uses a colon
after the parenthesised code. -/
theorem generated_display_counterexample :
    genDisplay (bindKind "NotFoundError" (ErrorKind.mk "NotFound" 404 "Resource Not Found"))
        GenInstance.new
      ≠ genClass (bindKind "NotFoundError" (ErrorKind.mk "NotFound" 404 "Resource Not Found"))
        ++ " (" ++ toString (genCode (bindKind "NotFoundError"
            (ErrorKind.mk "NotFound" 404 "Resource Not Found")) GenInstance.new)
        ++ ") - " ++ genMessage (bindKind "NotFoundError"
            (ErrorKind.mk "NotFound" 404 "Resource Not Found")) GenInstance.new := by
  decide

/-- C9 (amended): the generated Display carries the same resolved class,
code and message as the Display of the converted canonical Error, but its
separator between the parenthesised code and the message is a colon where
the Error rendering uses a hyphen. -/
theorem generated_display_shape (B : GenBinding) (e : GenInstance) :
    genDisplay B e
      = genClass B ++ " (" ++ toString (genCode B e) ++ "): " ++ genMessage B e ∧
    Error.display (genToError B e)
      = genClass B ++ " (" ++ toString (genCode B e) ++ ") - " ++ genMessage B e :=
  ⟨rfl, rfl⟩

/-- C10 (confirmed): the crate Result map sends Ok t to Ok (f t) and leaves
an Err payload unchanged, and the From conversion from a std Result maps Ok
to Ok and Err to Err with both payloads unchanged. -/
theorem cresult_map_and_from_std (T U : Type) (f : T → U) (t : T) (ec : Error) (s : T) :
    (CResult.ok t).map f = CResult.ok (f t) ∧
    (CResult.err ec : CResult T).map f = (CResult.err ec : CResult U) ∧
    CResult.fromStd (Except.ok s : Except Error T) = CResult.ok s ∧
    CResult.fromStd (Except.error ec : Except Error T) = CResult.err ec :=
  ⟨rfl, rfl, rfl, rfl⟩

end CdumayCore
